import Mathlib

/-
  Verification of the request-dispatch and caching layer of the chatbot
  frontend (src/api/openai.js: sendMessage and its module-level messageCache;
  src/components/Chat.js: handleSend with its 15-second Promise.race).

  Modelling conventions:
  - Time is in milliseconds (Nat).
  - The JS Map is an association list preserving insertion order; Map.set
    replaces in place or appends, Map.delete filters the key out.
  - Every setTimeout scheduled by sendMessage is recorded as a pending
    timer (fireTime, key); Cache.stepTo t plays the event loop forward to
    time t: each due timer runs messageCache.delete on its key.
  - The network transport (axios api.post) is an oracle: for a request body
    it either settles after some latency with a result (response data, or a
    thrown error for a non-2xx status or transport failure) or never settles.
  - A malformed payload (empty choices array) makes the member access
    response.data.choices[0].message.content throw, which the catch block
    rethrows: modelled as an error result with the cache untouched.
-/

namespace ChatDispatch

/-- The cache key template literal in sendMessage: systemPrompt ++ ":" ++ message. -/
def cacheKey (systemPrompt message : String) : String :=
  systemPrompt ++ ":" ++ message

/-- messageCache together with the pending eviction timers scheduled by setTimeout. -/
structure Cache where
  entries : List (String × String)
  timers : List (Nat × String)
  deriving DecidableEq, Repr

def emptyCache : Cache := { entries := [], timers := [] }

/-- JS Map.set: replace the value in place if the key is present, else append. -/
def setEntries : List (String × String) → String → String → List (String × String)
  | [], k, v => [(k, v)]
  | (k1, v1) :: rest, k, v =>
    if k1 = k then (k, v) :: rest else (k1, v1) :: setEntries rest k v

/-- JS Map.has. -/
def Cache.hasKey (c : Cache) (k : String) : Bool :=
  c.entries.any (fun e => e.1 == k)

/-- JS Map.get (none when absent). -/
def Cache.get (c : Cache) (k : String) : Option String :=
  (c.entries.find? (fun e => e.1 == k)).map Prod.snd

/-- The cache time-to-live: 5 * 60 * 1000 ms. -/
def TTL : Nat := 5 * 60 * 1000

/-- Lines 75-76 of the dispatch code: messageCache.set(cacheKey, result)
followed by setTimeout(() => messageCache.delete(cacheKey), TTL) at time now. -/
def storeResult (c : Cache) (now : Nat) (k v : String) : Cache :=
  { entries := setEntries c.entries k v,
    timers := c.timers ++ [(now + TTL, k)] }

/-- Play the event loop forward to time t: every pending timer with
fireTime ≤ t has run messageCache.delete on its key. -/
def Cache.stepTo (c : Cache) (t : Nat) : Cache :=
  { entries := c.entries.filter
      (fun e => ! c.timers.any (fun tm => decide (tm.1 ≤ t) && tm.2 == e.1)),
    timers := c.timers.filter (fun tm => decide (t < tm.1)) }

/-- One element of the messages array of the request body. -/
structure ApiMessage where
  role : String
  content : String
  deriving DecidableEq, Repr

/-- The outbound request issued by api.post on a cache miss. -/
structure RequestBody where
  method : String
  path : String
  model : String
  messages : List ApiMessage
  temperature : ℚ
  maxTokens : Nat
  deriving DecidableEq, Repr

/-- response.data.choices[i].message. -/
structure ChoiceMessage where
  content : String
  deriving DecidableEq, Repr

/-- One element of response.data.choices. -/
structure Choice where
  message : ChoiceMessage
  deriving DecidableEq, Repr

/-- response.data. -/
structure ResponseData where
  choices : List Choice
  deriving DecidableEq, Repr

/-- What the transport hands back when the request settles: response data on
a 2xx status, or a thrown error (non-2xx status or transport failure). -/
inductive NetResult where
  | ok (data : ResponseData)
  | err
  deriving DecidableEq

/-- Behaviour of one network call: settles after latency ms with a result,
or never settles. -/
inductive Net where
  | settles (latency : Nat) (result : NetResult)
  | hangs

/-- response.data.choices[0].message.content; none models the TypeError
thrown when the choices array is empty (malformed payload). -/
def extractContent (d : ResponseData) : Option String :=
  match d.choices with
  | [] => none
  | ch :: _ => some ch.message.content

/-- The literal request body built in sendMessage on a cache miss. -/
def buildRequest (message systemPrompt : String) : RequestBody :=
  { method := "POST",
    path := "/chat/completions",
    model := "gpt-3.5-turbo",
    messages := [{ role := "system", content := systemPrompt },
                 { role := "user", content := message }],
    temperature := 7 / 10,
    maxTokens := 500 }

/-- The settled value of the sendMessage promise. -/
inductive SendValue where
  | ok (text : String)
  | error
  deriving DecidableEq

/-- Everything observable about one sendMessage invocation: how (and when)
its promise settles, the cache state after its continuation has run, and the
outbound requests it issued. -/
structure SendOutcome where
  result : Option SendValue
  settleTime : Nat
  cache : Cache
  requests : List RequestBody
  deriving DecidableEq

/-- The dispatcher sendMessage(message, systemPrompt = ''), called at time
now against cache c, with the transport behaviour given by net. -/
def sendMessage (net : RequestBody → Net) (c : Cache) (now : Nat)
    (message : String) (systemPrompt : String) : SendOutcome :=
  let key := cacheKey systemPrompt message
  if c.hasKey key then
    { result := some (.ok ((c.get key).getD "")),
      settleTime := now, cache := c, requests := [] }
  else
    let req := buildRequest message systemPrompt
    match net req with
    | .hangs =>
      { result := none, settleTime := now, cache := c, requests := [req] }
    | .settles lat .err =>
      { result := some .error, settleTime := now + lat, cache := c,
        requests := [req] }
    | .settles lat (.ok data) =>
      match extractContent data with
      | none =>
        { result := some .error, settleTime := now + lat, cache := c,
          requests := [req] }
      | some text =>
        { result := some (.ok text), settleTime := now + lat,
          cache := storeResult c (now + lat) key text, requests := [req] }

/-- A conversation message as produced by addMessage in ChatContext. -/
structure ChatMessage where
  content : String
  isUser : Bool
  timestamp : Nat
  deriving DecidableEq, Repr

/-- The fixed fallback string appended by handleSend on any error. -/
def errorText : String := "Sorry, there was an error processing your request."

/-- JS whitespace for String.prototype.trim (the common code points). -/
def isJsWhitespace (ch : Char) : Bool :=
  ch = ' ' || ch = '\t' || ch = '\n' || ch = '\r' || ch = '\x0b' || ch = '\x0c' ||
    ch = '\u00A0'

/-- JS String.prototype.trim: strip whitespace from both ends. -/
def jsTrim (s : String) : String :=
  ⟨((s.data.dropWhile isJsWhitespace).reverse.dropWhile isJsWhitespace).reverse⟩

/-- The 15-second client-side timeout raced against sendMessage. -/
def TIMEOUT : Nat := 15000

/-- Everything observable about one handleSend invocation: the conversation
after it, the cache after all continuations have run, the requests issued,
and when the await of the race settled. -/
structure HandleOutcome where
  messages : List ChatMessage
  cache : Cache
  requests : List RequestBody
  doneTime : Nat
  deriving DecidableEq

/-- handleSend(text) from Chat.js at time now: guard on text.trim(), append
the user message, race sendMessage(text) against a 15-second timer, then
append either the response or the fixed error text as a bot message. The
cache field is the state after the sendMessage continuation has run, even
when the timer won the race (the in-flight call is abandoned, not
cancelled). -/
def handleSend (net : RequestBody → Net) (c : Cache) (now : Nat)
    (text : String) (msgs : List ChatMessage) : HandleOutcome :=
  if jsTrim text = "" then
    { messages := msgs, cache := c, requests := [], doneTime := now }
  else
    let msgs1 := msgs ++ [{ content := text, isUser := true, timestamp := now }]
    let so := sendMessage net c now text ""
    let deadline := now + TIMEOUT
    match so.result with
    | some r =>
      if so.settleTime ≤ deadline then
        match r with
        | .ok response =>
          { messages := msgs1 ++
              [{ content := response, isUser := false, timestamp := so.settleTime }],
            cache := so.cache, requests := so.requests, doneTime := so.settleTime }
        | .error =>
          { messages := msgs1 ++
              [{ content := errorText, isUser := false, timestamp := so.settleTime }],
            cache := so.cache, requests := so.requests, doneTime := so.settleTime }
      else
        { messages := msgs1 ++
            [{ content := errorText, isUser := false, timestamp := deadline }],
          cache := so.cache, requests := so.requests, doneTime := deadline }
    | none =>
      { messages := msgs1 ++
          [{ content := errorText, isUser := false, timestamp := deadline }],
        cache := so.cache, requests := so.requests, doneTime := deadline }

/-! Helper lemmas about the cache primitives. -/

theorem setEntries_find_self (l : List (String × String)) (k v : String) :
    (setEntries l k v).find? (fun e => e.1 == k) = some (k, v) := by
  induction l with
  | nil => simp [setEntries]
  | cons hd tl ih =>
    obtain ⟨k1, v1⟩ := hd
    by_cases h : k1 = k
    · simp [setEntries, h]
    · simp [setEntries, h, List.find?, ih]

theorem setEntries_hasKey_self (l : List (String × String)) (k v : String) :
    ((setEntries l k v).any (fun e => e.1 == k)) = true := by
  induction l with
  | nil => simp [setEntries]
  | cons hd tl ih =>
    obtain ⟨k1, v1⟩ := hd
    by_cases h : k1 = k
    · simp [setEntries, h]
    · simp [setEntries, h, ih]

theorem storeResult_get_self (c : Cache) (now : Nat) (k v : String) :
    (storeResult c now k v).get k = some v := by
  simp [storeResult, Cache.get, setEntries_find_self]

theorem storeResult_hasKey_self (c : Cache) (now : Nat) (k v : String) :
    (storeResult c now k v).hasKey k = true := by
  simp [storeResult, Cache.hasKey, setEntries_hasKey_self]

/-- find? is unchanged by a filter that keeps every element matching the
search predicate. -/
theorem find_filter_of_kept {α : Type} (p q : α → Bool) (l : List α)
    (h : ∀ a ∈ l, p a = true → q a = true) :
    (l.filter q).find? p = l.find? p := by
  induction l with
  | nil => rfl
  | cons hd tl ih =>
    have htl : ∀ a ∈ tl, p a = true → q a = true := by
      intro a ha hp
      exact h a (List.mem_cons_of_mem hd ha) hp
    by_cases hq : q hd = true
    · by_cases hp : p hd = true
      · simp [List.filter_cons, hq, List.find?, hp]
      · simp only [List.filter_cons, hq, if_true]
        simp only [List.find?, hp]
        simp only [Bool.not_eq_true] at hp
        simp [hp, ih htl]
    · have hp : p hd = false := by
        by_contra hc
        simp only [Bool.not_eq_false] at hc
        exact hq (h hd (List.mem_cons_self hd tl) hc)
      simp only [Bool.not_eq_true] at hq
      simp [List.filter_cons, hq, List.find?, hp, ih htl]

/-- If no pending timer for key k is due by time t, stepping the event loop
to t does not change what Map.get returns for k. -/
theorem stepTo_get_of_no_due_timer (c : Cache) (k : String) (t : Nat)
    (htm : ∀ tm ∈ c.timers, tm.2 = k → t < tm.1) :
    (c.stepTo t).get k = c.get k := by
  unfold Cache.stepTo Cache.get
  congr 1
  apply find_filter_of_kept
  intro e he hp
  simp only [beq_iff_eq] at hp
  simp only [Bool.not_eq_true']
  rw [List.any_eq_false]
  intro tm htmm
  simp only [Bool.and_eq_true, decide_eq_true_eq, beq_iff_eq, not_and]
  intro hle
  rw [hp]
  intro h2
  exact absurd hle (Nat.not_le_of_lt (htm tm htmm h2))

/-- If some pending timer for key k is due by time t, stepping the event
loop to t removes the entry for k: the delete callback has run. -/
theorem stepTo_hasKey_false_of_due_timer (c : Cache) (k : String) (t : Nat)
    (htm : ∃ tm ∈ c.timers, tm.2 = k ∧ tm.1 ≤ t) :
    (c.stepTo t).hasKey k = false := by
  obtain ⟨tm, hmem, hk, hle⟩ := htm
  unfold Cache.stepTo Cache.hasKey
  rw [List.any_eq_false]
  intro e he
  simp only [List.mem_filter] at he
  obtain ⟨_, hkept⟩ := he
  simp only [Bool.not_eq_true', List.any_eq_false] at hkept
  have := hkept tm hmem
  simp only [Bool.and_eq_true, decide_eq_true_eq, beq_iff_eq, not_and] at this
  simp only [beq_iff_eq]
  intro hek
  exact this hle (hk.trans hek.symm)

theorem hasKey_iff_get_isSome (c : Cache) (k : String) :
    c.hasKey k = true ↔ ((c.get k).isSome = true) := by
  unfold Cache.hasKey Cache.get
  simp only [List.any_eq_true, Option.isSome_map', List.find?_isSome]

theorem hasKey_of_get_eq_some (c : Cache) (k v : String) (h : c.get k = some v) :
    c.hasKey k = true := by
  rw [hasKey_iff_get_isSome, h]
  rfl

/-- On a cache miss the dispatcher issues exactly the one literal request,
whatever the transport then does. -/
theorem requests_of_miss (net : RequestBody → Net) (c : Cache) (now : Nat)
    (message systemPrompt : String)
    (h : c.hasKey (cacheKey systemPrompt message) = false) :
    (sendMessage net c now message systemPrompt).requests =
      [buildRequest message systemPrompt] := by
  cases hnet : net (buildRequest message systemPrompt) with
  | hangs => simp [sendMessage, h, hnet]
  | settles lat r =>
    cases r with
    | err => simp [sendMessage, h, hnet]
    | ok d => cases hext : extractContent d <;> simp [sendMessage, h, hnet, hext]

/-- On a cache miss with a successful, well-formed response, sendMessage
evaluates to exactly this outcome. -/
theorem sendMessage_miss_success (net : RequestBody → Net) (c : Cache) (now : Nat)
    (message systemPrompt : String) (lat : Nat) (d : ResponseData) (text : String)
    (h : c.hasKey (cacheKey systemPrompt message) = false)
    (hnet : net (buildRequest message systemPrompt) = .settles lat (.ok d))
    (hext : extractContent d = some text) :
    sendMessage net c now message systemPrompt =
      { result := some (.ok text), settleTime := now + lat,
        cache := storeResult c (now + lat) (cacheKey systemPrompt message) text,
        requests := [buildRequest message systemPrompt] } := by
  simp [sendMessage, h, hnet, hext]

/-- On a cache hit, sendMessage returns the cached value at once and touches
nothing. -/
theorem sendMessage_hit (net : RequestBody → Net) (c : Cache) (now : Nat)
    (message systemPrompt : String)
    (h : c.hasKey (cacheKey systemPrompt message) = true) :
    sendMessage net c now message systemPrompt =
      { result := some (.ok ((c.get (cacheKey systemPrompt message)).getD "")),
        settleTime := now, cache := c, requests := [] } := by
  simp [sendMessage, h]

/-! Claim theorems. -/

/-- C7: for every key present in the cache, sendMessage returns the cached
text immediately (it settles at the call instant), issues no network request
and leaves the cache — and everything else in the outcome — untouched; the
lookup itself has no side effect. -/
theorem C7_hit_is_pure (net : RequestBody → Net) (c : Cache) (now : Nat)
    (message systemPrompt : String)
    (h : c.hasKey (cacheKey systemPrompt message) = true) :
    ∃ v, c.get (cacheKey systemPrompt message) = some v ∧
      sendMessage net c now message systemPrompt =
        { result := some (.ok v), settleTime := now, cache := c, requests := [] } := by
  obtain ⟨v, hv⟩ := Option.isSome_iff_exists.mp ((hasKey_iff_get_isSome c _).mp h)
  refine ⟨v, hv, ?_⟩
  rw [sendMessage_hit net c now message systemPrompt h, hv]
  rfl

/-- C7 witness: a concrete hit on a one-entry cache. -/
theorem C7_hit_is_pure_witness :
    ∃ v, (Cache.mk [(":Hello", "Hi there!")] []).get (cacheKey "" "Hello") = some v ∧
      sendMessage (fun _ => Net.hangs) (Cache.mk [(":Hello", "Hi there!")] []) 42 "Hello" "" =
        { result := some (.ok v), settleTime := 42,
          cache := Cache.mk [(":Hello", "Hi there!")] [], requests := [] } :=
  C7_hit_is_pure (fun _ => Net.hangs) (Cache.mk [(":Hello", "Hi there!")] []) 42
    "Hello" "" (by decide)

/-- C8: on a cache miss, sendMessage issues exactly one outbound POST to
/chat/completions whose body carries the fixed model identifier, the
two-element messages array system-then-user, temperature 0.7 and
max_tokens 500 — whatever the transport then does with the request. -/
theorem C8_request_shape (net : RequestBody → Net) (c : Cache) (now : Nat)
    (message systemPrompt : String)
    (h : c.hasKey (cacheKey systemPrompt message) = false) :
    (sendMessage net c now message systemPrompt).requests =
      [{ method := "POST",
         path := "/chat/completions",
         model := "gpt-3.5-turbo",
         messages := [{ role := "system", content := systemPrompt },
                      { role := "user", content := message }],
         temperature := 7 / 10,
         maxTokens := 500 }] := by
  rw [requests_of_miss net c now message systemPrompt h]
  rfl

/-- C8 witness: the concrete request issued on a miss from the empty cache. -/
theorem C8_request_shape_witness :
    (sendMessage (fun _ => Net.hangs) emptyCache 0 "Hello" "Be brief").requests =
      [{ method := "POST",
         path := "/chat/completions",
         model := "gpt-3.5-turbo",
         messages := [{ role := "system", content := "Be brief" },
                      { role := "user", content := "Hello" }],
         temperature := 7 / 10,
         maxTokens := 500 }] :=
  C8_request_shape (fun _ => Net.hangs) emptyCache 0 "Hello" "Be brief" (by decide)

/-- C9: the cache key is the bare concatenation systemPrompt ++ ":" ++
message and is not injective: the distinct pairs ("a:b", "c") and
("a", "b:c") collide, and after a completion "X" has been cached for the
pair with systemPrompt "a:b" and userMessage "c", a send for systemPrompt
"a" and userMessage "b:c" is served "X" from the cache with no request —
even though the transport would have answered "Y". -/
theorem C9_key_collision :
    cacheKey "a:b" "c" = cacheKey "a" "b:c" ∧
    (("a:b", "c") : String × String) ≠ ("a", "b:c") ∧
    (sendMessage (fun _ => Net.settles 5 (.ok ⟨[⟨⟨"Y"⟩⟩]⟩))
        (storeResult emptyCache 0 (cacheKey "a:b" "c") "X") 10 "b:c" "a") =
      { result := some (.ok "X"), settleTime := 10,
        cache := storeResult emptyCache 0 (cacheKey "a:b" "c") "X",
        requests := [] } := by
  refine ⟨rfl, by decide, ?_⟩
  rw [sendMessage_hit _ _ _ _ _ (by decide)]
  rfl

/-- C6: on a cache miss with a successful network call, sendMessage returns
the content of the first choice message, and the cache afterwards maps the key
built from (systemPrompt, userMessage) to that same text, with an eviction
timer scheduled a 5-minute time-to-live after the store. -/
theorem C6_success_stores_and_returns (net : RequestBody → Net) (c : Cache)
    (now : Nat) (message systemPrompt : String) (lat : Nat) (d : ResponseData)
    (text : String)
    (h : c.hasKey (cacheKey systemPrompt message) = false)
    (hnet : net (buildRequest message systemPrompt) = .settles lat (.ok d))
    (hext : extractContent d = some text) :
    (sendMessage net c now message systemPrompt).result = some (.ok text) ∧
    (sendMessage net c now message systemPrompt).cache.get
        (cacheKey systemPrompt message) = some text ∧
    (now + lat + TTL, cacheKey systemPrompt message) ∈
      (sendMessage net c now message systemPrompt).cache.timers := by
  rw [sendMessage_miss_success net c now message systemPrompt lat d text h hnet hext]
  refine ⟨rfl, storeResult_get_self c (now + lat) _ text, ?_⟩
  simp [storeResult]

/-- C6 witness: send("Hello", "") against a mocked transport answering
"Hi there!" returns exactly "Hi there!" and populates the cache under the
key of the pair ("", "Hello"). -/
theorem C6_success_stores_and_returns_witness :
    (sendMessage (fun _ => Net.settles 100 (.ok ⟨[⟨⟨"Hi there!"⟩⟩]⟩))
        emptyCache 0 "Hello" "").result = some (.ok "Hi there!") ∧
    (sendMessage (fun _ => Net.settles 100 (.ok ⟨[⟨⟨"Hi there!"⟩⟩]⟩))
        emptyCache 0 "Hello" "").cache.get (cacheKey "" "Hello") = some "Hi there!" ∧
    (0 + 100 + TTL, cacheKey "" "Hello") ∈
      (sendMessage (fun _ => Net.settles 100 (.ok ⟨[⟨⟨"Hi there!"⟩⟩]⟩))
        emptyCache 0 "Hello" "").cache.timers :=
  C6_success_stores_and_returns (fun _ => Net.settles 100 (.ok ⟨[⟨⟨"Hi there!"⟩⟩]⟩))
    emptyCache 0 "Hello" "" 100 ⟨[⟨⟨"Hi there!"⟩⟩]⟩ "Hi there!" (by decide) rfl rfl

/-- C1: the claim fails on the code. After store(key, "v1") at t = 0 and
store(key, "v2") at t = 60000 (one minute later, well before the removal
of the first entry fires), the stale timer scheduled for "v1" runs
messageCache.delete(key) at t = 300000 and so removes "v2" at the original
expiry time of the FIRST entry, although the time-to-live of "v2" runs to
t = 360000: at t = 299999 the key still yields "v2", at t = 300000 the key
is gone and a repeated send issues a network request again. The code
contradicts the store contract of the spec (no premature removal of the newer
value caused by a stale timer for the old one). -/
theorem C1_stale_timer_evicts_newer :
    300000 < 60000 + TTL ∧
    ((storeResult (storeResult emptyCache 0 (cacheKey "s" "m") "v1") 60000
        (cacheKey "s" "m") "v2").stepTo 299999).get (cacheKey "s" "m") = some "v2" ∧
    ((storeResult (storeResult emptyCache 0 (cacheKey "s" "m") "v1") 60000
        (cacheKey "s" "m") "v2").stepTo 300000).hasKey (cacheKey "s" "m") = false ∧
    (sendMessage (fun _ => Net.hangs)
        ((storeResult (storeResult emptyCache 0 (cacheKey "s" "m") "v1") 60000
          (cacheKey "s" "m") "v2").stepTo 300000) 300000 "m" "s").requests.length = 1 := by
  refine ⟨by decide, by decide, by decide, by decide⟩

/-- After a successful miss, stepping the event loop to any instant before
the expiry of the stored entry leaves the entry readable, provided the caller
held no stale timer for the key. -/
theorem stepTo_get_after_store (c : Cache) (s t : Nat) (k v : String)
    (htm : ∀ tm ∈ c.timers, tm.2 ≠ k) (ht : t < s + TTL) :
    ((storeResult c s k v).stepTo t).get k = some v := by
  rw [stepTo_get_of_no_due_timer]
  · exact storeResult_get_self c s k v
  · intro tm hmem hk2
    simp only [storeResult, List.mem_append, List.mem_singleton] at hmem
    rcases hmem with hold | hnew
    · exact absurd hk2 (htm tm hold)
    · rw [hnew]
      exact ht

/-- C2: two consecutive successful calls with the same (systemPrompt,
userMessage) pair, the second within the 5-minute time-to-live of the entry
the first stored, issue at most one outbound request in total, and the
second call returns exactly the text returned by the first (served from the
cache, no request of its own). -/
theorem C2_second_call_cached (net1 net2 : RequestBody → Net) (c : Cache)
    (t1 t2 lat : Nat) (message systemPrompt : String) (d : ResponseData)
    (text : String)
    (hkey : c.hasKey (cacheKey systemPrompt message) = false)
    (htm : ∀ tm ∈ c.timers, tm.2 ≠ cacheKey systemPrompt message)
    (hnet : net1 (buildRequest message systemPrompt) = .settles lat (.ok d))
    (hext : extractContent d = some text)
    (h1 : t1 + lat ≤ t2) (h2 : t2 < t1 + lat + TTL) :
    (sendMessage net1 c t1 message systemPrompt).result = some (.ok text) ∧
    (sendMessage net2 ((sendMessage net1 c t1 message systemPrompt).cache.stepTo t2)
        t2 message systemPrompt).result = some (.ok text) ∧
    (sendMessage net2 ((sendMessage net1 c t1 message systemPrompt).cache.stepTo t2)
        t2 message systemPrompt).requests = [] ∧
    ((sendMessage net1 c t1 message systemPrompt).requests ++
      (sendMessage net2 ((sendMessage net1 c t1 message systemPrompt).cache.stepTo t2)
        t2 message systemPrompt).requests).length ≤ 1 := by
  rw [sendMessage_miss_success net1 c t1 message systemPrompt lat d text hkey hnet hext]
  have hget := stepTo_get_after_store c (t1 + lat) t2
    (cacheKey systemPrompt message) text htm h2
  have hhit := hasKey_of_get_eq_some _ _ _ hget
  rw [sendMessage_hit net2 _ t2 message systemPrompt hhit, hget]
  exact ⟨rfl, rfl, rfl, by simp⟩

/-- C2 witness: two sends of ("", "Hello") at t = 0 and t = 1000 against a
transport answering "Hi there!" after 100 ms. -/
theorem C2_second_call_cached_witness :
    (sendMessage (fun _ => Net.settles 100 (.ok ⟨[⟨⟨"Hi there!"⟩⟩]⟩))
        emptyCache 0 "Hello" "").result = some (.ok "Hi there!") ∧
    (sendMessage (fun _ => Net.hangs)
        ((sendMessage (fun _ => Net.settles 100 (.ok ⟨[⟨⟨"Hi there!"⟩⟩]⟩))
          emptyCache 0 "Hello" "").cache.stepTo 1000)
        1000 "Hello" "").result = some (.ok "Hi there!") ∧
    (sendMessage (fun _ => Net.hangs)
        ((sendMessage (fun _ => Net.settles 100 (.ok ⟨[⟨⟨"Hi there!"⟩⟩]⟩))
          emptyCache 0 "Hello" "").cache.stepTo 1000)
        1000 "Hello" "").requests = [] ∧
    ((sendMessage (fun _ => Net.settles 100 (.ok ⟨[⟨⟨"Hi there!"⟩⟩]⟩))
        emptyCache 0 "Hello" "").requests ++
      (sendMessage (fun _ => Net.hangs)
        ((sendMessage (fun _ => Net.settles 100 (.ok ⟨[⟨⟨"Hi there!"⟩⟩]⟩))
          emptyCache 0 "Hello" "").cache.stepTo 1000)
        1000 "Hello" "").requests).length ≤ 1 :=
  C2_second_call_cached (fun _ => Net.settles 100 (.ok ⟨[⟨⟨"Hi there!"⟩⟩]⟩))
    (fun _ => Net.hangs) emptyCache 0 1000 100 "Hello" "" ⟨[⟨⟨"Hi there!"⟩⟩]⟩
    "Hi there!" (by decide) (by intro tm hmem; simp [emptyCache] at hmem) rfl rfl
    (by decide) (by decide)

/-- C3: the entry stored by a successful miss is gone once the event loop
reaches any instant at or past its 5-minute expiry — a lookup there misses —
and a repeated send with the same pair at such an instant issues a fresh
outbound network request. -/
theorem C3_expiry_evicts (net1 net2 : RequestBody → Net) (c : Cache)
    (t1 t2 lat : Nat) (message systemPrompt : String) (d : ResponseData)
    (text : String)
    (hkey : c.hasKey (cacheKey systemPrompt message) = false)
    (htm : ∀ tm ∈ c.timers, tm.2 ≠ cacheKey systemPrompt message)
    (hnet : net1 (buildRequest message systemPrompt) = .settles lat (.ok d))
    (hext : extractContent d = some text)
    (h2 : t1 + lat + TTL ≤ t2) :
    ((sendMessage net1 c t1 message systemPrompt).cache.stepTo t2).hasKey
        (cacheKey systemPrompt message) = false ∧
    (sendMessage net2 ((sendMessage net1 c t1 message systemPrompt).cache.stepTo t2)
        t2 message systemPrompt).requests = [buildRequest message systemPrompt] := by
  rw [sendMessage_miss_success net1 c t1 message systemPrompt lat d text hkey hnet hext]
  have hgone : ((storeResult c (t1 + lat) (cacheKey systemPrompt message) text).stepTo
      t2).hasKey (cacheKey systemPrompt message) = false := by
    apply stepTo_hasKey_false_of_due_timer
    refine ⟨(t1 + lat + TTL, cacheKey systemPrompt message), ?_, rfl, h2⟩
    simp [storeResult]
  exact ⟨hgone, requests_of_miss net2 _ t2 message systemPrompt hgone⟩

/-- C3 witness: the entry stored at t = 100 is gone at t = 300100 and the
repeated send issues the request again. -/
theorem C3_expiry_evicts_witness :
    ((sendMessage (fun _ => Net.settles 100 (.ok ⟨[⟨⟨"Hi there!"⟩⟩]⟩))
        emptyCache 0 "Hello" "").cache.stepTo 300100).hasKey
        (cacheKey "" "Hello") = false ∧
    (sendMessage (fun _ => Net.hangs)
        ((sendMessage (fun _ => Net.settles 100 (.ok ⟨[⟨⟨"Hi there!"⟩⟩]⟩))
          emptyCache 0 "Hello" "").cache.stepTo 300100)
        300100 "Hello" "").requests = [buildRequest "Hello" ""] :=
  C3_expiry_evicts (fun _ => Net.settles 100 (.ok ⟨[⟨⟨"Hi there!"⟩⟩]⟩))
    (fun _ => Net.hangs) emptyCache 0 300100 100 "Hello" "" ⟨[⟨⟨"Hi there!"⟩⟩]⟩
    "Hi there!" (by decide) (by intro tm hmem; simp [emptyCache] at hmem) rfl rfl
    (by decide)

/-! sendMessage on the remaining transport behaviours, and handleSend. -/

theorem sendMessage_miss_err (net : RequestBody → Net) (c : Cache) (now : Nat)
    (message systemPrompt : String) (lat : Nat)
    (h : c.hasKey (cacheKey systemPrompt message) = false)
    (hnet : net (buildRequest message systemPrompt) = .settles lat .err) :
    sendMessage net c now message systemPrompt =
      { result := some .error, settleTime := now + lat, cache := c,
        requests := [buildRequest message systemPrompt] } := by
  simp [sendMessage, h, hnet]

theorem sendMessage_miss_malformed (net : RequestBody → Net) (c : Cache) (now : Nat)
    (message systemPrompt : String) (lat : Nat) (d : ResponseData)
    (h : c.hasKey (cacheKey systemPrompt message) = false)
    (hnet : net (buildRequest message systemPrompt) = .settles lat (.ok d))
    (hext : extractContent d = none) :
    sendMessage net c now message systemPrompt =
      { result := some .error, settleTime := now + lat, cache := c,
        requests := [buildRequest message systemPrompt] } := by
  simp [sendMessage, h, hnet, hext]

theorem sendMessage_miss_hangs (net : RequestBody → Net) (c : Cache) (now : Nat)
    (message systemPrompt : String)
    (h : c.hasKey (cacheKey systemPrompt message) = false)
    (hnet : net (buildRequest message systemPrompt) = .hangs) :
    sendMessage net c now message systemPrompt =
      { result := none, settleTime := now, cache := c,
        requests := [buildRequest message systemPrompt] } := by
  simp [sendMessage, h, hnet]

/-- handleSend when the sendMessage promise rejects: the race yields the
rejection if it settles by the deadline, the timer otherwise; either way the
fixed error text is appended. -/
theorem handleSend_of_error (net : RequestBody → Net) (c : Cache) (now : Nat)
    (text : String) (msgs : List ChatMessage) (st : Nat) (cc : Cache)
    (rs : List RequestBody)
    (htext : ¬ jsTrim text = "")
    (hso : sendMessage net c now text "" =
      { result := some .error, settleTime := st, cache := cc, requests := rs }) :
    handleSend net c now text msgs =
      { messages := msgs ++ [{ content := text, isUser := true, timestamp := now },
          { content := errorText, isUser := false,
            timestamp := if st ≤ now + TIMEOUT then st else now + TIMEOUT }],
        cache := cc, requests := rs,
        doneTime := if st ≤ now + TIMEOUT then st else now + TIMEOUT } := by
  by_cases h : st ≤ now + TIMEOUT <;> simp [handleSend, htext, hso, h]

/-- handleSend when the sendMessage promise never settles: the 15-second
timer wins and the fixed error text is appended at the deadline. -/
theorem handleSend_of_none (net : RequestBody → Net) (c : Cache) (now : Nat)
    (text : String) (msgs : List ChatMessage) (st : Nat) (cc : Cache)
    (rs : List RequestBody)
    (htext : ¬ jsTrim text = "")
    (hso : sendMessage net c now text "" =
      { result := none, settleTime := st, cache := cc, requests := rs }) :
    handleSend net c now text msgs =
      { messages := msgs ++ [{ content := text, isUser := true, timestamp := now },
          { content := errorText, isUser := false, timestamp := now + TIMEOUT }],
        cache := cc, requests := rs, doneTime := now + TIMEOUT } := by
  simp [handleSend, htext, hso]

/-- handleSend when the sendMessage promise resolves with text: the response
is appended if it beats the 15-second timer, the fixed error text otherwise;
in both cases the cache mutation of the sendMessage continuation stands. -/
theorem handleSend_of_ok (net : RequestBody → Net) (c : Cache) (now : Nat)
    (text : String) (msgs : List ChatMessage) (tx : String) (st : Nat)
    (cc : Cache) (rs : List RequestBody)
    (htext : ¬ jsTrim text = "")
    (hso : sendMessage net c now text "" =
      { result := some (.ok tx), settleTime := st, cache := cc, requests := rs }) :
    handleSend net c now text msgs =
      if st ≤ now + TIMEOUT then
        { messages := msgs ++ [{ content := text, isUser := true, timestamp := now },
            { content := tx, isUser := false, timestamp := st }],
          cache := cc, requests := rs, doneTime := st }
      else
        { messages := msgs ++ [{ content := text, isUser := true, timestamp := now },
            { content := errorText, isUser := false, timestamp := now + TIMEOUT }],
          cache := cc, requests := rs, doneTime := now + TIMEOUT } := by
  by_cases h : st ≤ now + TIMEOUT <;> simp [handleSend, htext, hso, h]

/-- C5: whenever the underlying network call takes longer than 15 seconds
(whatever it then delivers) or never settles, the race in handleSend settles
at exactly now + 15000 with the error path taken: a send never hangs waiting
on the transport. -/
theorem C5_race_never_hangs (net : RequestBody → Net) (c : Cache) (now : Nat)
    (text : String) (msgs : List ChatMessage)
    (htext : ¬ jsTrim text = "")
    (hkey : c.hasKey (cacheKey "" text) = false)
    (hnet : (∃ lat r, net (buildRequest text "") = .settles lat r ∧ TIMEOUT < lat)
      ∨ net (buildRequest text "") = .hangs) :
    (handleSend net c now text msgs).doneTime = now + TIMEOUT ∧
    (handleSend net c now text msgs).messages =
      msgs ++ [{ content := text, isUser := true, timestamp := now },
        { content := errorText, isUser := false, timestamp := now + TIMEOUT }] := by
  rcases hnet with ⟨lat, r, hnet, hlat⟩ | hnet
  · have hif : ¬ (now + lat ≤ now + TIMEOUT) := by omega
    cases r with
    | err =>
      rw [handleSend_of_error net c now text msgs (now + lat) c _ htext
        (sendMessage_miss_err net c now text "" lat hkey hnet)]
      simp [hif]
    | ok d =>
      cases hext : extractContent d with
      | none =>
        rw [handleSend_of_error net c now text msgs (now + lat) c _ htext
          (sendMessage_miss_malformed net c now text "" lat d hkey hnet hext)]
        simp [hif]
      | some tx =>
        rw [handleSend_of_ok net c now text msgs tx (now + lat) _ _ htext
          (sendMessage_miss_success net c now text "" lat d tx hkey hnet hext)]
        simp [hif]
  · rw [handleSend_of_none net c now text msgs now c _ htext
      (sendMessage_miss_hangs net c now text "" hkey hnet)]
    exact ⟨rfl, rfl⟩

/-- C5 witness: a transport that never settles, and one that answers after
20 seconds; both sends settle at exactly t = 15000. -/
theorem C5_race_never_hangs_witness :
    (handleSend (fun _ => Net.hangs) emptyCache 0 "Hello" []).doneTime = 0 + TIMEOUT ∧
    (handleSend (fun _ => Net.hangs) emptyCache 0 "Hello" []).messages =
      [] ++ [{ content := "Hello", isUser := true, timestamp := 0 },
        { content := errorText, isUser := false, timestamp := 0 + TIMEOUT }] :=
  C5_race_never_hangs (fun _ => Net.hangs) emptyCache 0 "Hello" [] (by decide)
    (by decide) (Or.inr rfl)

/-- C4 counterexample: the claim as stated is false. With a transport that
answers "Hi there!" only after 20 seconds, the 15-second race times out —
handleSend appends exactly the fixed error string — and yet the cache IS
mutated: the continuation of the abandoned call stores the completion under the
key when it finally arrives. -/
theorem C4_counterexample :
    (handleSend (fun _ => Net.settles 20000 (.ok ⟨[⟨⟨"Hi there!"⟩⟩]⟩))
        emptyCache 0 "Hello" []).messages =
      [{ content := "Hello", isUser := true, timestamp := 0 },
       { content := errorText, isUser := false, timestamp := 15000 }] ∧
    (handleSend (fun _ => Net.settles 20000 (.ok ⟨[⟨⟨"Hi there!"⟩⟩]⟩))
        emptyCache 0 "Hello" []).cache.hasKey (cacheKey "" "Hello") = true := by
  constructor
  · rw [handleSend_of_ok _ _ _ _ _ "Hi there!" 20000 _ _ (by decide)
      (sendMessage_miss_success _ emptyCache 0 "Hello" "" 20000 ⟨[⟨⟨"Hi there!"⟩⟩]⟩
        "Hi there!" (by decide) rfl rfl)]
    decide
  · rw [handleSend_of_ok _ _ _ _ _ "Hi there!" 20000 _ _ (by decide)
      (sendMessage_miss_success _ emptyCache 0 "Hello" "" 20000 ⟨[⟨⟨"Hi there!"⟩⟩]⟩
        "Hi there!" (by decide) rfl rfl)]
    decide

/-- C4 amended: on any dispatcher-level failure — error status or transport
error, malformed payload, a call that never settles, or a 15-second race
timeout — handleSend appends exactly the fixed error string as a single bot
message after the user message, issues exactly one outbound request (no
retry); the cache is left unmutated, EXCEPT that when the race times out and
the abandoned call later succeeds, the completion is still stored in the
cache at its arrival. -/
theorem C4_failure_propagation (net : RequestBody → Net) (c : Cache) (now : Nat)
    (text : String) (msgs : List ChatMessage)
    (htext : ¬ jsTrim text = "")
    (hkey : c.hasKey (cacheKey "" text) = false)
    (hfail : (∃ lat, net (buildRequest text "") = .settles lat .err)
      ∨ (∃ lat d, net (buildRequest text "") = .settles lat (.ok d) ∧
          extractContent d = none)
      ∨ net (buildRequest text "") = .hangs
      ∨ (∃ lat r, net (buildRequest text "") = .settles lat r ∧ TIMEOUT < lat)) :
    (∃ ts, (handleSend net c now text msgs).messages =
      msgs ++ [{ content := text, isUser := true, timestamp := now },
        { content := errorText, isUser := false, timestamp := ts }]) ∧
    (handleSend net c now text msgs).requests = [buildRequest text ""] ∧
    ((handleSend net c now text msgs).cache = c ∨
      ∃ lat d tx, net (buildRequest text "") = .settles lat (.ok d) ∧
        extractContent d = some tx ∧ TIMEOUT < lat ∧
        (handleSend net c now text msgs).cache =
          storeResult c (now + lat) (cacheKey "" text) tx) := by
  rcases hfail with ⟨lat, hnet⟩ | ⟨lat, d, hnet, hext⟩ | hnet | ⟨lat, r, hnet, hlat⟩
  · rw [handleSend_of_error net c now text msgs (now + lat) c _ htext
      (sendMessage_miss_err net c now text "" lat hkey hnet)]
    exact ⟨⟨_, rfl⟩, rfl, Or.inl rfl⟩
  · rw [handleSend_of_error net c now text msgs (now + lat) c _ htext
      (sendMessage_miss_malformed net c now text "" lat d hkey hnet hext)]
    exact ⟨⟨_, rfl⟩, rfl, Or.inl rfl⟩
  · rw [handleSend_of_none net c now text msgs now c _ htext
      (sendMessage_miss_hangs net c now text "" hkey hnet)]
    exact ⟨⟨_, rfl⟩, rfl, Or.inl rfl⟩
  · have hif : ¬ (now + lat ≤ now + TIMEOUT) := by omega
    cases r with
    | err =>
      rw [handleSend_of_error net c now text msgs (now + lat) c _ htext
        (sendMessage_miss_err net c now text "" lat hkey hnet)]
      exact ⟨⟨_, rfl⟩, rfl, Or.inl rfl⟩
    | ok d =>
      cases hext : extractContent d with
      | none =>
        rw [handleSend_of_error net c now text msgs (now + lat) c _ htext
          (sendMessage_miss_malformed net c now text "" lat d hkey hnet hext)]
        exact ⟨⟨_, rfl⟩, rfl, Or.inl rfl⟩
      | some tx =>
        rw [handleSend_of_ok net c now text msgs tx (now + lat) _ _ htext
          (sendMessage_miss_success net c now text "" lat d tx hkey hnet hext),
          if_neg hif]
        exact ⟨⟨_, rfl⟩, rfl, Or.inr ⟨lat, d, tx, hnet, hext, hlat, rfl⟩⟩

/-- C4 witness: a transport failing at once with an error status. -/
theorem C4_failure_propagation_witness :
    (∃ ts, (handleSend (fun _ => Net.settles 100 .err) emptyCache 0 "Hello" []).messages =
      [] ++ [{ content := "Hello", isUser := true, timestamp := 0 },
        { content := errorText, isUser := false, timestamp := ts }]) ∧
    (handleSend (fun _ => Net.settles 100 .err) emptyCache 0 "Hello" []).requests =
      [buildRequest "Hello" ""] ∧
    ((handleSend (fun _ => Net.settles 100 .err) emptyCache 0 "Hello" []).cache =
        emptyCache ∨
      ∃ lat d tx, (fun _ => Net.settles 100 .err) (buildRequest "Hello" "") =
          Net.settles lat (.ok d) ∧
        extractContent d = some tx ∧ TIMEOUT < lat ∧
        (handleSend (fun _ => Net.settles 100 .err) emptyCache 0 "Hello" []).cache =
          storeResult emptyCache (0 + lat) (cacheKey "" "Hello") tx) :=
  C4_failure_propagation (fun _ => Net.settles 100 .err) emptyCache 0 "Hello" []
    (by decide) (by decide) (Or.inl ⟨100, rfl⟩)

/-- C10: when the 15-second timeout wins the race but the abandoned network
call later succeeds, the user sees the fixed error message, yet sendMessage
still stores the completion in the cache on arrival; a subsequent identical
send before the expiry of the entry is served from the cache with no network
request, returning the very completion whose original send surfaced an
error. -/
theorem C10_abandoned_call_still_caches (net1 net2 : RequestBody → Net)
    (c : Cache) (now t2 lat : Nat) (text : String) (msgs : List ChatMessage)
    (d : ResponseData) (tx : String)
    (htext : ¬ jsTrim text = "")
    (hkey : c.hasKey (cacheKey "" text) = false)
    (htm : ∀ tm ∈ c.timers, tm.2 ≠ cacheKey "" text)
    (hnet : net1 (buildRequest text "") = .settles lat (.ok d))
    (hext : extractContent d = some tx)
    (hlat : TIMEOUT < lat)
    (h2 : t2 < now + lat + TTL) :
    (handleSend net1 c now text msgs).messages =
      msgs ++ [{ content := text, isUser := true, timestamp := now },
        { content := errorText, isUser := false, timestamp := now + TIMEOUT }] ∧
    (handleSend net1 c now text msgs).cache.get (cacheKey "" text) = some tx ∧
    (sendMessage net2 ((handleSend net1 c now text msgs).cache.stepTo t2)
        t2 text "").result = some (.ok tx) ∧
    (sendMessage net2 ((handleSend net1 c now text msgs).cache.stepTo t2)
        t2 text "").requests = [] := by
  have hif : ¬ (now + lat ≤ now + TIMEOUT) := by omega
  rw [handleSend_of_ok net1 c now text msgs tx (now + lat) _ _ htext
    (sendMessage_miss_success net1 c now text "" lat d tx hkey hnet hext),
    if_neg hif]
  have hget := stepTo_get_after_store c (now + lat) t2 (cacheKey "" text) tx htm h2
  have hhit := hasKey_of_get_eq_some _ _ _ hget
  rw [sendMessage_hit net2 _ t2 text "" hhit, hget]
  exact ⟨rfl, storeResult_get_self c (now + lat) _ tx, rfl, rfl⟩

/-- C10 witness: latency 20 seconds, second send at t = 30000. -/
theorem C10_abandoned_call_still_caches_witness :
    (handleSend (fun _ => Net.settles 20000 (.ok ⟨[⟨⟨"Hi there!"⟩⟩]⟩))
        emptyCache 0 "Hello" []).messages =
      [] ++ [{ content := "Hello", isUser := true, timestamp := 0 },
        { content := errorText, isUser := false, timestamp := 0 + TIMEOUT }] ∧
    (handleSend (fun _ => Net.settles 20000 (.ok ⟨[⟨⟨"Hi there!"⟩⟩]⟩))
        emptyCache 0 "Hello" []).cache.get (cacheKey "" "Hello") = some "Hi there!" ∧
    (sendMessage (fun _ => Net.hangs)
        ((handleSend (fun _ => Net.settles 20000 (.ok ⟨[⟨⟨"Hi there!"⟩⟩]⟩))
          emptyCache 0 "Hello" []).cache.stepTo 30000)
        30000 "Hello" "").result = some (.ok "Hi there!") ∧
    (sendMessage (fun _ => Net.hangs)
        ((handleSend (fun _ => Net.settles 20000 (.ok ⟨[⟨⟨"Hi there!"⟩⟩]⟩))
          emptyCache 0 "Hello" []).cache.stepTo 30000)
        30000 "Hello" "").requests = [] :=
  C10_abandoned_call_still_caches (fun _ => Net.settles 20000 (.ok ⟨[⟨⟨"Hi there!"⟩⟩]⟩))
    (fun _ => Net.hangs) emptyCache 0 30000 20000 "Hello" [] ⟨[⟨⟨"Hi there!"⟩⟩]⟩
    "Hi there!" (by decide) (by decide)
    (by intro tm hmem; simp [emptyCache] at hmem) rfl rfl (by decide) (by decide)

end ChatDispatch
